import Mathlib

/-!
# Verification of the Nirnay-112 realtime client core

Shallow embedding of the WebSocket client service of the Nirnay-112
frontend (file frontend/nirnay-ui/src/services/socket.js and the audio
capture loop of frontend/nirnay-ui/src/App.jsx).  Numbers that are JS
floats are modelled as rationals; all operations the claims exercise are
exact at that granularity.  Fallible JSON parsing is modelled as an
abstract function into Option.
-/

/-- A parsed inbound JSON envelope.  One optional field per field the
client reads off a message in processMessage; the mandatory type tag is
the switch discriminant. -/
structure Msg where
  type : String
  session_id : Option String := none
  text : Option String := none
  speaker : Option String := none
  timestamp : Option String := none
  confidence : Option ℚ := none
  summary : Option String := none
  incident : Option String := none
  missing_fields : Option (List String) := none
  urgency_score : Option ℚ := none
  urgency_level : Option String := none
  top_3_contributing_factors : Option (List String) := none
  why_escalated : Option String := none
  confidence_warnings : Option (List String) := none
  status : Option String := none
  message : Option String := none
  reason : Option String := none
  transcribed : Option Bool := none
deriving DecidableEq

/-- Domain events delivered to subscribers via notifySubscribers.  One
variant per distinct event object shape the service publishes. -/
inductive DomainEvent where
  | sessionInitialized (sessionId : Option String)
  | transcript (text : Option String) (speaker : String) (timestamp : String)
      (confidence : Option ℚ)
  | incidentSummary (incident : Option String) (confidence : Option ℚ)
      (missingFields : List String)
  | decisionExplanation (urgencyScore : Option ℚ) (urgencyLevel : Option String)
      (factors : List String) (whyEscalated : Option String)
      (warnings : List String)
  | transcriptionStatus (status : Option String) (message : Option String)
      (confidence : Option ℚ)
  | errorMsg (message : Option String)
  | audioProcessed (transcribed : Bool)
  | disconnected (code : Nat) (reason : String)
deriving DecidableEq

/-- processMessage (socket.js lines 195-273): dispatch on the type tag,
publishing exactly the event of the matching case; unknown tags fall to
the default case which publishes nothing.  The argument now stands for
new Date().toISOString(), used only as the timestamp fallback. -/
def processMessage (now : String) (m : Msg) : List DomainEvent :=
  if m.type = "session_initialized" then
    [.sessionInitialized m.session_id]
  else if m.type = "transcript" ∨ m.type = "user_transcript" ∨ m.type = "ai_transcript" then
    [.transcript m.text
      (m.speaker.getD (if m.type = "ai_transcript" then "ai" else "user"))
      (m.timestamp.getD now) m.confidence]
  else if m.type = "incident_summary" then
    [.incidentSummary (m.summary <|> m.incident) m.confidence
      (m.missing_fields.getD [])]
  else if m.type = "decision_explanation" then
    [.decisionExplanation m.urgency_score m.urgency_level
      (m.top_3_contributing_factors.getD []) m.why_escalated
      (m.confidence_warnings.getD [])]
  else if m.type = "transcription_status" then
    [.transcriptionStatus m.status (m.message <|> m.reason) m.confidence]
  else if m.type = "error" then
    [.errorMsg m.message]
  else if m.type = "audio_processed" then
    [.audioProcessed (m.transcribed.getD false)]
  else
    []

/-- The type tags of the switch cases of processMessage (the mapping
table of the spec, section 6). -/
def knownTypes : List String :=
  ["session_initialized", "transcript", "user_transcript", "ai_transcript",
   "incident_summary", "decision_explanation", "transcription_status",
   "error", "audio_processed"]

/-- The session-related state of the service read by the text-frame
handler: the session identifier and the connected flag. -/
structure SessionState where
  sessionId : Option String
  isConnected : Bool
deriving DecidableEq

/-- The text branch of handleMessage (socket.js lines 161-181): try to
parse the frame; on success hand the message to processMessage, on
failure publish a single error event.  The parser is abstract (JSON.parse
modelled as a function into Option).  Returns the session state after
handling together with the published events. -/
def handleTextFrame (parse : String → Option Msg) (now : String)
    (data : String) (s : SessionState) : SessionState × List DomainEvent :=
  match parse data with
  | some m => (s, processMessage now m)
  | none => (s, [.errorMsg (some "Failed to parse message")])

/-! ## ConnectionManager: close handling and reconnection backoff -/

/-- Connection-manager state: the reconnect attempt counter, the base
reconnect delay and the connected flag (socket.js constructor). -/
structure ConnState where
  reconnectAttempts : Nat
  reconnectDelay : Nat
  isConnected : Bool
deriving DecidableEq

/-- maxReconnectAttempts = 5 (socket.js line 17). -/
def maxReconnectAttempts : Nat := 5

/-- attemptReconnect (socket.js lines 124-135): increment the attempt
counter, then schedule a reconnect after
min(reconnectDelay * 2 ^ (reconnectAttempts - 1), 30000) ms.  Returns the
updated state and the scheduled delay. -/
def attemptReconnect (s : ConnState) : ConnState × Nat :=
  let a := s.reconnectAttempts + 1
  ({ s with reconnectAttempts := a }, min (s.reconnectDelay * 2 ^ (a - 1)) 30000)

/-- ws.onclose (socket.js lines 97-111): clear the connected flag,
publish a disconnected event, and, when the close code is not 1000 and
the attempt cap is not reached, run attemptReconnect.  Returns the new
state, the published events, and the scheduled reconnect delay (none when
no reconnect is scheduled). -/
def onclose (code : Nat) (reason : String) (s : ConnState) :
    ConnState × List DomainEvent × Option Nat :=
  let s1 : ConnState := { s with isConnected := false }
  let evs : List DomainEvent := [.disconnected code reason]
  if code ≠ 1000 ∧ s1.reconnectAttempts < maxReconnectAttempts then
    let r := attemptReconnect s1
    (r.1, evs, some r.2)
  else
    (s1, evs, none)

/-- ws.onopen (socket.js lines 60-78), state effects only: set the
connected flag, reset the attempt counter to 0 and the base delay to
1000. -/
def onopen (s : ConnState) : ConnState :=
  { s with isConnected := true, reconnectAttempts := 0, reconnectDelay := 1000 }

/-- The connection-manager state right after a successful open. -/
def openState : ConnState :=
  onopen { reconnectAttempts := 0, reconnectDelay := 1000, isConnected := false }

/-- k consecutive abnormal closes starting from a freshly opened
connection (each reconnect attempt failing and closing again with the
same code): the final state and the list of scheduled reconnect delays,
in order. -/
def closeRun (code : Nat) (reason : String) : Nat → ConnState × List Nat
  | 0 => (openState, [])
  | k + 1 =>
    let p := closeRun code reason k
    let r := onclose code reason p.1
    (r.1, p.2 ++ r.2.2.toList)

/-! ## Outbound audio encoding (sendAudioChunk) -/

/-- JS Math.round: round half toward positive infinity. -/
def jsRound (x : ℚ) : ℤ := ⌊x + 1 / 2⌋

/-- The per-sample float-to-int16 conversion of sendAudioChunk
(socket.js lines 558-563): clamp the sample to [-1, 1], multiply by
32768, round, and clamp the result to the int16 range. -/
def float32ToInt16 (x : ℚ) : ℤ :=
  let s := max (-1 : ℚ) (min 1 x)
  max (-32768) (min 32767 (jsRound (s * 32768)))

/-- The Float32Array branch of sendAudioChunk, per-sample map over the
chunk. -/
def sendAudioChunkEncode (chunk : List ℚ) : List ℤ :=
  chunk.map float32ToInt16

/-! ## Audio capture chunking (App.jsx processor.onaudioprocess) -/

/-- chunkSize = 8000 samples, 500 ms at 16 kHz (App.jsx line 189). -/
def chunkSize : Nat := 8000

/-- One onaudioprocess callback (App.jsx lines 183-195): append the
incoming block to the accumulation buffer; if the buffer has reached
chunkSize, splice off exactly chunkSize samples as the outbound chunk.
Returns the remaining buffer and the emitted chunk, if any. -/
def onaudioprocess (buf block : List ℚ) : List ℚ × Option (List ℚ) :=
  let b := buf ++ block
  if chunkSize ≤ b.length then (b.drop chunkSize, some (b.take chunkSize))
  else (b, none)

/-- Run the capture callback over a sequence of input blocks starting
from the given buffer, collecting every emitted chunk in order. -/
def runCaptureAux (buf : List ℚ) : List (List ℚ) → List ℚ × List (List ℚ)
  | [] => (buf, [])
  | b :: rest =>
    let r := onaudioprocess buf b
    let r2 := runCaptureAux r.1 rest
    (r2.1, r.2.toList ++ r2.2)

/-- Run the capture callback over a sequence of input blocks from an
empty buffer (the buffer starts empty when recording starts). -/
def runCapture (blocks : List (List ℚ)) : List ℚ × List (List ℚ) :=
  runCaptureAux [] blocks

/-! ## PlaybackScheduler: MP3 fragment buffering and playback

Untimed small-step model of handleAudioChunk (socket.js lines 283-346)
and playMP3Buffer (lines 352-502).  A fragment is a byte list.  The field
active is a ghost counter of playbacks started and not yet completed; the
code guards playback starts with the isPlaying flag. -/

/-- Scheduler state: the fragment buffer, whether an idle-flush timer is
pending, the isPlaying flag, the unit currently being played, and the
ghost count of in-progress playbacks. -/
structure SchedState where
  mp3Buffer : List (List Nat)
  timerSet : Bool
  isPlaying : Bool
  currentUnit : Option (List Nat)
  active : Nat
deriving DecidableEq

/-- Initial scheduler state (socket.js constructor): empty buffer, no
timer, not playing. -/
def schedInit : SchedState :=
  { mp3Buffer := [], timerSet := false, isPlaying := false,
    currentUnit := none, active := 0 }

/-- The asynchronous events driving the scheduler: a fragment arrives
(handleAudioChunk), the idle-flush timer fires (the setTimeout callback),
or the in-progress playback completes (audio.onended and the code after
await playPromise). -/
inductive SchedEvent where
  | frag (f : List Nat)
  | timerFire
  | playEnd
deriving DecidableEq

/-- One scheduler step.
frag: handleAudioChunk pushes the fragment and (re)sets the 300 ms
timer.  timerFire: the timeout callback starts playMP3Buffer only if
nothing is playing and the buffer is nonempty; playMP3Buffer sets
isPlaying, concatenates the buffered fragments into one unit and clears
the buffer.  playEnd: audio.onended clears isPlaying; the continuation
then replays immediately on the accumulated buffer if it is nonempty
(one playback ends and the next starts, net active unchanged), else the
pipeline goes idle. -/
def schedStep (s : SchedState) : SchedEvent → SchedState
  | .frag f => { s with mp3Buffer := s.mp3Buffer ++ [f], timerSet := true }
  | .timerFire =>
    if s.timerSet then
      if ¬s.isPlaying ∧ s.mp3Buffer ≠ [] then
        { s with timerSet := false, isPlaying := true, active := s.active + 1,
                 currentUnit := some s.mp3Buffer.flatten, mp3Buffer := [] }
      else { s with timerSet := false }
    else s
  | .playEnd =>
    if s.isPlaying then
      if s.mp3Buffer ≠ [] then
        { s with currentUnit := some s.mp3Buffer.flatten, mp3Buffer := [] }
      else
        { s with isPlaying := false, active := s.active - 1, currentUnit := none }
    else s

/-- Run a sequence of scheduler events from the initial state. -/
def schedRun (es : List SchedEvent) : SchedState :=
  es.foldl schedStep schedInit

/-! ## Timed playback model for the idle-flush window

A timed refinement of the fragment-arrival path: absolute times in ms,
the pending idle-flush deadline, and a log of playback invocations with
their start times. -/

/-- Timed scheduler state: fragment buffer, pending timer deadline (ms),
isPlaying flag, and the log of (start time, played unit) pairs. -/
structure TimedState where
  mp3Buffer : List (List Nat)
  deadline : Option Nat
  isPlaying : Bool
  playbacks : List (Nat × List Nat)
deriving DecidableEq

/-- Initial timed state: empty buffer, no pending timer, idle. -/
def timedInit : TimedState :=
  { mp3Buffer := [], deadline := none, isPlaying := false, playbacks := [] }

/-- The idle-flush timer fires at time t: if nothing is playing and the
buffer is nonempty, playMP3Buffer starts a playback on the concatenated
buffer and clears it; the pending timer is consumed either way. -/
def fireTimer (t : Nat) (s : TimedState) : TimedState :=
  if ¬s.isPlaying ∧ s.mp3Buffer ≠ [] then
    { s with deadline := none, isPlaying := true, mp3Buffer := [],
             playbacks := s.playbacks ++ [(t, s.mp3Buffer.flatten)] }
  else { s with deadline := none }

/-- A fragment arrives at time t: handleAudioChunk appends it to the
buffer, clears any pending timer and sets a new one 300 ms out. -/
def fragArrive (t : Nat) (f : List Nat) (s : TimedState) : TimedState :=
  { s with mp3Buffer := s.mp3Buffer ++ [f], deadline := some (t + 300) }

/-- Process a chronologically ordered list of fragment arrivals: before
each arrival, fire the pending timer if its deadline has already passed;
after the last arrival, let the pending timer fire. -/
def runArrivals (s : TimedState) : List (Nat × List Nat) → TimedState
  | [] =>
    match s.deadline with
    | some d => fireTimer d s
    | none => s
  | (t, f) :: rest =>
    let s1 :=
      match s.deadline with
      | some d => if d ≤ t then fireTimer d s else s
      | none => s
    runArrivals (fragArrive t f s1) rest

/-! ## EventBus: subscribe / unsubscribe / notifySubscribers

The subscribers field is a JS Set of callbacks; modelled as a
duplicate-free list of callback identities (Nat), insertion order kept. -/

/-- subscribe (socket.js lines 598-604): Set.add, a no-op when the
callback is already subscribed. -/
def subscribe (subs : List Nat) (f : Nat) : List Nat :=
  if f ∈ subs then subs else subs ++ [f]

/-- unsubscribe (socket.js lines 613-615): Set.delete. -/
def unsubscribe (subs : List Nat) (f : Nat) : List Nat :=
  subs.erase f

/-- notifySubscribers (socket.js lines 624-632): invoke every subscribed
callback once with the event; returns the list of (callback, event)
invocations in iteration order. -/
def notifySubscribers (subs : List Nat) (e : DomainEvent) :
    List (Nat × DomainEvent) :=
  subs.map (fun g => (g, e))

/-- n repeated subscribe calls of the same callback. -/
def subscribeN (subs : List Nat) (f : Nat) : Nat → List Nat
  | 0 => subs
  | n + 1 => subscribe (subscribeN subs f n) f

/-! ## Service-level connect and disconnect (session lifecycle) -/

/-- The whole-service state touched by connect and disconnect. -/
structure ServiceState where
  sessionId : Option String
  isConnected : Bool
  wsOpen : Bool
  audioQueue : List (List Nat)
  mp3Buffer : List (List Nat)
  isPlaying : Bool
  mp3PlayTimeout : Bool
  audioContextOpen : Bool
deriving DecidableEq

/-- The constructor state (socket.js lines 12-25). -/
def serviceInit : ServiceState :=
  { sessionId := none, isConnected := false, wsOpen := false,
    audioQueue := [], mp3Buffer := [], isPlaying := false,
    mp3PlayTimeout := false, audioContextOpen := false }

/-- The sessionId assignment at the top of connect (socket.js lines
36-41): use the supplied identifier, generating one if absent, and store
it on the service. -/
def connectSetSession (requested : Option String) (generated : String)
    (s : ServiceState) : ServiceState :=
  { s with sessionId := some (requested.getD generated) }

/-- disconnect (socket.js lines 639-658): close the socket with code
1000, clear the connected flag, the audio queue, the MP3 buffer, the
playing flag, the pending play timeout and the audio context.  The
sessionId field is not touched. -/
def disconnect (s : ServiceState) : ServiceState :=
  { s with wsOpen := false, isConnected := false, audioQueue := [],
           mp3Buffer := [], isPlaying := false, mp3PlayTimeout := false,
           audioContextOpen := false }

/-- getSessionId (socket.js lines 683-685). -/
def getSessionId (s : ServiceState) : Option String :=
  s.sessionId

/-! ## Theorems -/

/-- C2: for every inbound text frame that decodes as an envelope whose
type tag is not one of the known tags of the mapping table, zero domain
events are published (the default switch case publishes nothing). -/
theorem c2_unknown_type_ignored (now : String) (m : Msg)
    (h : m.type ∉ knownTypes) : processMessage now m = [] := by
  simp only [knownTypes, List.mem_cons, List.mem_singleton, not_or,
    List.not_mem_nil, or_false] at h
  obtain ⟨h1, h2, h3, h4, h5, h6, h7, h8, h9⟩ := h
  simp [processMessage, h1, h2, h3, h4, h5, h6, h7, h8, h9]

/-- Witness for C2 at a concrete unknown tag. -/
theorem c2_unknown_type_ignored_witness :
    ("mystery_tag" : String) ∉ knownTypes ∧
      processMessage "t0" { type := "mystery_tag" } = [] :=
  ⟨by decide, c2_unknown_type_ignored "t0" { type := "mystery_tag" } (by decide)⟩

/-- C5: a text frame that fails to decode publishes exactly one Error
event and leaves the session state (session identifier, connected flag)
unchanged. -/
theorem c5_parse_failure_single_error (parse : String → Option Msg)
    (now data : String) (s : SessionState) (h : parse data = none) :
    handleTextFrame parse now data s =
      (s, [.errorMsg (some "Failed to parse message")]) := by
  simp [handleTextFrame, h]

/-- Witness for C5 with a parser rejecting the frame. -/
theorem c5_parse_failure_single_error_witness :
    handleTextFrame (fun _ => none) "t0" "not a json object"
        { sessionId := some "sess", isConnected := true } =
      ({ sessionId := some "sess", isConnected := true },
       [.errorMsg (some "Failed to parse message")]) :=
  c5_parse_failure_single_error (fun _ => none) "t0" "not a json object" _ rfl

/-- C3: the outbound per-sample encoding clamps to [-1, 1] and maps with
round-to-nearest into the 16-bit range: -1 encodes to -32768, 0 to 0,
1 to 32767; every output lies in [-32768, 32767]; and pre-clamped input
encodes identically (the clamp is what the encoder applies). -/
theorem c3_sample_encoding :
    float32ToInt16 (-1) = -32768 ∧ float32ToInt16 0 = 0 ∧
    float32ToInt16 1 = 32767 ∧
    sendAudioChunkEncode [-1, 0, 1] = [-32768, 0, 32767] ∧
    (∀ x : ℚ, -32768 ≤ float32ToInt16 x ∧ float32ToInt16 x ≤ 32767) ∧
    (∀ x : ℚ, float32ToInt16 x = float32ToInt16 (max (-1) (min 1 x))) := by
  refine ⟨by norm_num [float32ToInt16, jsRound],
    by norm_num [float32ToInt16, jsRound],
    by norm_num [float32ToInt16, jsRound],
    by norm_num [sendAudioChunkEncode, float32ToInt16, jsRound],
    fun x => ⟨le_max_left _ _, max_le (by norm_num) (min_le_left _ _)⟩,
    fun x => ?_⟩
  have h2 : max (-1 : ℚ) (min 1 x) ≤ 1 := max_le (by norm_num) (min_le_left _ _)
  have h1 : (-1 : ℚ) ≤ max (-1) (min 1 x) := le_max_left _ _
  simp only [float32ToInt16]
  rw [min_eq_right h2, max_eq_right h1]

/-- C8: a close with code 1000 never schedules a reconnect; a close with
any other code schedules a reconnect whenever the attempt cap is not yet
reached, with the backoff delay of the next attempt. -/
theorem c8_close_code_policy (s : ConnState) (code : Nat) (reason : String) :
    (onclose 1000 reason s).2.2 = none ∧
    (code ≠ 1000 → s.reconnectAttempts < maxReconnectAttempts →
      (onclose code reason s).2.2 =
        some (min (s.reconnectDelay * 2 ^ s.reconnectAttempts) 30000)) := by
  constructor
  · simp [onclose]
  · intro h1 h2
    simp [onclose, attemptReconnect, h1, h2]

/-- Witness for C8: abnormal code 1006 under the cap schedules the base
delay; code 1000 schedules nothing. -/
theorem c8_close_code_policy_witness :
    (onclose 1000 "r" ⟨0, 1000, true⟩).2.2 = none ∧
    (onclose 1006 "r" ⟨0, 1000, true⟩).2.2 =
      some (min (1000 * 2 ^ 0) 30000) :=
  ⟨(c8_close_code_policy ⟨0, 1000, true⟩ 1006 "r").1,
   (c8_close_code_policy ⟨0, 1000, true⟩ 1006 "r").2 (by decide) (by decide)⟩

/-- C9: code-bug exhibit.  After connect stores a session identifier,
disconnect clears the connected flag and every buffer, but the session
identifier is still observable through getSessionId — disconnect never
resets it, although the getSessionId documentation promises null when
not connected and the spec says the session is destroyed at explicit
disconnect. -/
theorem c9_disconnect_keeps_session_id :
    getSessionId (disconnect (connectSetSession (some "session_A") "gen"
        serviceInit)) = some "session_A" ∧
    (disconnect (connectSetSession (some "session_A") "gen"
        serviceInit)).isConnected = false := by
  constructor <;> rfl

/-- notifySubscribers invokes a callback as many times as it occurs in
the subscriber list. -/
lemma notifySubscribers_count (subs : List Nat) (f : Nat) (e : DomainEvent) :
    (notifySubscribers subs e).count (f, e) = subs.count f := by
  induction subs with
  | nil => simp [notifySubscribers]
  | cons g rest ih =>
    simp [notifySubscribers, List.count_cons, Prod.ext_iff] at ih ⊢
    exact ih

/-- subscribe keeps the subscriber list duplicate-free. -/
lemma subscribe_nodup (subs : List Nat) (f : Nat) (h : subs.Nodup) :
    (subscribe subs f).Nodup := by
  unfold subscribe
  split_ifs with hmem
  · exact h
  · simp [List.nodup_append, h, hmem]

/-- A callback is subscribed after subscribe. -/
lemma mem_subscribe (subs : List Nat) (f : Nat) : f ∈ subscribe subs f := by
  unfold subscribe
  split_ifs with hmem
  · exact hmem
  · simp

/-- Repeated subscribe calls keep the list duplicate-free. -/
lemma subscribeN_nodup (subs : List Nat) (f : Nat) (h : subs.Nodup) :
    ∀ n, (subscribeN subs f n).Nodup := by
  intro n
  induction n with
  | zero => exact h
  | succ n ih => exact subscribe_nodup _ _ ih

/-- C10: subscription is idempotent by callback identity.  After n >= 1
subscribe calls of the same callback on a duplicate-free subscriber set,
a single publish invokes the callback exactly once, and after one
unsubscribe a publish does not invoke it at all. -/
theorem c10_subscribe_idempotent (subs : List Nat) (f : Nat) (n : Nat)
    (e : DomainEvent) (hnd : subs.Nodup) (hn : 1 ≤ n) :
    (notifySubscribers (subscribeN subs f n) e).count (f, e) = 1 ∧
    (notifySubscribers (unsubscribe (subscribeN subs f n) f) e).count (f, e)
      = 0 := by
  obtain ⟨m, rfl⟩ : ∃ m, n = m + 1 := ⟨n - 1, by omega⟩
  have hnd2 : (subscribeN subs f (m + 1)).Nodup := subscribeN_nodup subs f hnd _
  have hmem : f ∈ subscribeN subs f (m + 1) := mem_subscribe _ _
  have hone : (subscribeN subs f (m + 1)).count f = 1 :=
    List.count_eq_one_of_mem hnd2 hmem
  refine ⟨by rw [notifySubscribers_count, hone], ?_⟩
  rw [notifySubscribers_count]
  unfold unsubscribe
  rw [List.count_erase_self, hone]

/-- Witness for C10 at a concrete callback and event. -/
theorem c10_subscribe_idempotent_witness :
    (notifySubscribers (subscribeN [] 0 3) (.errorMsg none)).count
        (0, .errorMsg none) = 1 ∧
    (notifySubscribers (unsubscribe (subscribeN [] 0 3) 0)
        (.errorMsg none)).count (0, .errorMsg none) = 0 :=
  c10_subscribe_idempotent [] 0 3 (.errorMsg none) List.nodup_nil (by omega)

/-- Every chunk emitted by one capture callback has length exactly
chunkSize. -/
lemma onaudioprocess_chunk_length (buf block c : List ℚ)
    (h : c ∈ (onaudioprocess buf block).2.toList) : c.length = 8000 := by
  simp only [onaudioprocess] at h
  split_ifs at h with hlen
  · simp only [Option.toList_some, List.mem_singleton] at h
    subst h
    simpa [chunkSize] using Nat.min_eq_left hlen
  · simp at h

/-- Every chunk collected over any run of the capture callback has
length exactly chunkSize. -/
lemma runCaptureAux_chunk_length (blocks : List (List ℚ)) :
    ∀ buf c, c ∈ (runCaptureAux buf blocks).2 → c.length = 8000 := by
  induction blocks with
  | nil => intro buf c hc; simp [runCaptureAux] at hc
  | cons b rest ih =>
    intro buf c hc
    simp only [runCaptureAux, List.mem_append] at hc
    rcases hc with hc | hc
    · exact onaudioprocess_chunk_length buf b c hc
    · exact ih _ c hc

/-- Running the capture callback on a single block reduces to one
callback invocation. -/
lemma runCapture_single (block : List ℚ) :
    runCapture [block] =
      ((onaudioprocess [] block).1, (onaudioprocess [] block).2.toList) := by
  simp [runCapture, runCaptureAux]

/-- C4: with the 8000-sample threshold, feeding 8000 samples emits
exactly one chunk, that chunk is the whole window, and the remainder is
empty; feeding 8001 samples emits one chunk of 8000 with one sample left
buffered; and every chunk ever emitted has length exactly 8000. -/
theorem c4_capture_chunking :
    (∀ block : List ℚ, block.length = 8000 →
      runCapture [block] = ([], [block])) ∧
    (∀ block : List ℚ, block.length = 8001 →
      (runCapture [block]).2 = [block.take 8000] ∧
      (runCapture [block]).1.length = 1) ∧
    (∀ (blocks : List (List ℚ)) (c : List ℚ),
      c ∈ (runCapture blocks).2 → c.length = 8000) := by
  refine ⟨fun block h => ?_, fun block h => ?_, fun blocks c hc =>
    runCaptureAux_chunk_length blocks [] c hc⟩
  · have htake : block.take 8000 = block := by
      rw [← h, List.take_length]
    have hdrop : block.drop 8000 = [] := by
      rw [← h, List.drop_length]
    rw [runCapture_single]
    simp only [onaudioprocess, List.nil_append, chunkSize]
    rw [if_pos (le_of_eq h.symm), htake, hdrop]
    rfl
  · have hc : (8000 : Nat) ≤ block.length := by omega
    rw [runCapture_single]
    simp only [onaudioprocess, List.nil_append, chunkSize]
    rw [if_pos hc]
    refine ⟨rfl, ?_⟩
    simp [List.length_drop, h]

/-- Witness for C4 at concrete sample windows. -/
theorem c4_capture_chunking_witness :
    (List.replicate 8000 (0 : ℚ)).length = 8000 ∧
    runCapture [List.replicate 8000 (0 : ℚ)] =
      ([], [List.replicate 8000 (0 : ℚ)]) ∧
    (List.replicate 8001 (0 : ℚ)).length = 8001 ∧
    (runCapture [List.replicate 8001 (0 : ℚ)]).1.length = 1 :=
  ⟨by rw [List.length_replicate], c4_capture_chunking.1 _ (by rw [List.length_replicate]),
   by rw [List.length_replicate], (c4_capture_chunking.2.1 _ (by rw [List.length_replicate])).2⟩

/-- State invariant along a run of abnormal closes: the attempt counter
is the number of closes capped at 5, and the base delay stays 1000. -/
lemma closeRun_state (code : Nat) (reason : String) (h : code ≠ 1000) :
    ∀ k, (closeRun code reason k).1.reconnectAttempts = min k 5 ∧
         (closeRun code reason k).1.reconnectDelay = 1000 := by
  intro k
  induction k with
  | zero => simp [closeRun, openState, onopen]
  | succ k ih =>
    obtain ⟨ha, hd⟩ := ih
    by_cases hk : k < 5
    · have hm : min k 5 = k := by omega
      have hm1 : min (k + 1) 5 = k + 1 := by omega
      simp [closeRun, onclose, attemptReconnect, maxReconnectAttempts,
        h, ha, hd, hm, hk, hm1]
    · have hm : min k 5 = 5 := by omega
      have hm1 : min (k + 1) 5 = 5 := by omega
      simp [closeRun, onclose, attemptReconnect, maxReconnectAttempts,
        h, ha, hd, hm, hk, hm1]

/-- The scheduled delays along a run of abnormal closes. -/
lemma closeRun_delays (code : Nat) (reason : String) (h : code ≠ 1000) :
    ∀ k, (closeRun code reason k).2 =
      (List.range (min k 5)).map (fun i => min (1000 * 2 ^ i) 30000) := by
  intro k
  induction k with
  | zero => simp [closeRun]
  | succ k ih =>
    obtain ⟨ha, hd⟩ := closeRun_state code reason h k
    by_cases hk : k < 5
    · have hm : min k 5 = k := by omega
      have hm1 : min (k + 1) 5 = k + 1 := by omega
      simp only [closeRun, onclose, attemptReconnect, maxReconnectAttempts]
      rw [hm1, List.range_succ, List.map_append]
      simp [h, ha, hd, hm, hk, ih]
    · have hm1 : min (k + 1) 5 = min k 5 := by omega
      simp only [closeRun, onclose, attemptReconnect, maxReconnectAttempts]
      have hnot : ¬(code ≠ 1000 ∧
          (closeRun code reason k).1.reconnectAttempts < 5) := by
        rw [ha]
        omega
      rw [if_neg hnot]
      simpa [hm1] using ih

/-- C1: along any run of consecutive abnormal closes from a fresh
connection, the delays scheduled before attempts 1..5 are
min(1000 * 2 ^ (n - 1), 30000) ms, concretely 1000, 2000, 4000, 8000,
16000, and no 6th reconnection attempt is ever scheduled (at most 5
delays appear no matter how many closes occur). -/
theorem c1_backoff_schedule (code : Nat) (reason : String) (h : code ≠ 1000) :
    (∀ k, (closeRun code reason k).2 =
      (List.range (min k 5)).map (fun i => min (1000 * 2 ^ i) 30000)) ∧
    (closeRun code reason 5).2 = [1000, 2000, 4000, 8000, 16000] ∧
    (∀ k, (closeRun code reason k).2.length ≤ 5) := by
  refine ⟨closeRun_delays code reason h, ?_, fun k => ?_⟩
  · rw [closeRun_delays code reason h 5]
    decide
  · rw [closeRun_delays code reason h k]
    simp

/-- Witness for C1 with abnormal close code 1006. -/
theorem c1_backoff_schedule_witness :
    (closeRun 1006 "abnormal" 5).2 = [1000, 2000, 4000, 8000, 16000] ∧
    (closeRun 1006 "abnormal" 8).2.length ≤ 5 :=
  ⟨(c1_backoff_schedule 1006 "abnormal" (by decide)).2.1,
   (c1_backoff_schedule 1006 "abnormal" (by decide)).2.2 8⟩

/-- One scheduler step preserves the relation between the ghost playback
counter and the isPlaying flag. -/
lemma schedStep_active_inv (s : SchedState) (e : SchedEvent)
    (h : s.active = if s.isPlaying then 1 else 0) :
    (schedStep s e).active = if (schedStep s e).isPlaying then 1 else 0 := by
  cases e with
  | frag f => simpa [schedStep] using h
  | timerFire =>
    rcases hp : s.isPlaying <;> rcases ht : s.timerSet <;>
      rcases hb : s.mp3Buffer with _ | ⟨x, xs⟩ <;>
      simp_all [schedStep]
  | playEnd =>
    rcases hp : s.isPlaying <;>
      rcases hb : s.mp3Buffer with _ | ⟨x, xs⟩ <;>
      simp_all [schedStep]

/-- The counter-flag relation holds after any fold of scheduler steps
from a state satisfying it. -/
lemma foldl_sched_inv (es : List SchedEvent) :
    ∀ s : SchedState, s.active = (if s.isPlaying then 1 else 0) →
      (es.foldl schedStep s).active =
        if (es.foldl schedStep s).isPlaying then 1 else 0 := by
  induction es with
  | nil => intro s h; simpa using h
  | cons e rest ih =>
    intro s h
    simpa using ih (schedStep s e) (schedStep_active_inv s e h)

/-- C6: mutual exclusion of playback.  Along every event sequence at
most one playback is in progress; a fragment arriving during a playback
only grows the buffer and starts nothing; the idle timer firing during a
playback starts nothing; and a playback completing with a nonempty
buffer immediately starts the next playback on the accumulated
fragments, clearing the buffer. -/
theorem c6_playback_mutual_exclusion :
    (∀ es : List SchedEvent, (schedRun es).active ≤ 1) ∧
    (∀ (s : SchedState) (f : List Nat), s.isPlaying = true →
      (schedStep s (.frag f)).active = s.active ∧
      (schedStep s (.frag f)).isPlaying = true ∧
      (schedStep s (.frag f)).currentUnit = s.currentUnit ∧
      (schedStep s (.frag f)).mp3Buffer = s.mp3Buffer ++ [f]) ∧
    (∀ s : SchedState, s.isPlaying = true →
      (schedStep s .timerFire).active = s.active ∧
      (schedStep s .timerFire).isPlaying = true ∧
      (schedStep s .timerFire).currentUnit = s.currentUnit ∧
      (schedStep s .timerFire).mp3Buffer = s.mp3Buffer) ∧
    (∀ s : SchedState, s.isPlaying = true → s.mp3Buffer ≠ [] →
      (schedStep s .playEnd).isPlaying = true ∧
      (schedStep s .playEnd).currentUnit = some s.mp3Buffer.flatten ∧
      (schedStep s .playEnd).mp3Buffer = [] ∧
      (schedStep s .playEnd).active = s.active) := by
  refine ⟨fun es => ?_, fun s f h => ?_, fun s h => ?_, fun s h hb => ?_⟩
  · have hinv := foldl_sched_inv es schedInit (by simp [schedInit])
    rw [schedRun]
    rw [hinv]
    split <;> omega
  · simp [schedStep, h]
  · simp only [schedStep]
    split_ifs with h1 h2
    · exact absurd h h2.1
    · simp [h]
    · simp [h]
  · simp [schedStep, h, hb]

/-- Witness for C6 at a concrete mid-playback state. -/
theorem c6_playback_mutual_exclusion_witness :
    (schedStep ⟨[[7]], false, true, some [9], 1⟩ (.frag [2])).active = 1 ∧
    (schedStep ⟨[[7]], false, true, some [9], 1⟩ .timerFire).isPlaying = true ∧
    (schedStep ⟨[[7]], false, true, some [9], 1⟩ .playEnd).currentUnit =
      some [7] ∧
    (schedStep ⟨[[7]], false, true, some [9], 1⟩ .playEnd).mp3Buffer = [] :=
  ⟨(c6_playback_mutual_exclusion.2.1 ⟨[[7]], false, true, some [9], 1⟩ [2]
      rfl).1,
   (c6_playback_mutual_exclusion.2.2.1 ⟨[[7]], false, true, some [9], 1⟩
      rfl).2.1,
   (c6_playback_mutual_exclusion.2.2.2 ⟨[[7]], false, true, some [9], 1⟩
      rfl (by simp)).2.1,
   (c6_playback_mutual_exclusion.2.2.2 ⟨[[7]], false, true, some [9], 1⟩
      rfl (by simp)).2.2.1⟩

/-- C7: fragments arriving at 0 ms, 100 ms and 150 ms followed by
silence, with no playback in progress, produce exactly one playback
invocation, starting at 450 ms, playing the three fragments concatenated
in arrival order, with the buffer cleared at the flush. -/
theorem c7_idle_flush_timing (f1 f2 f3 : List Nat) :
    runArrivals timedInit [(0, f1), (100, f2), (150, f3)] =
      { mp3Buffer := [], deadline := none, isPlaying := true,
        playbacks := [(450, f1 ++ f2 ++ f3)] } := by
  simp [runArrivals, fragArrive, fireTimer, timedInit]
